import Mathlib

/-!
Shallow embedding of the delay-tracking logic of the `delijn_tracker`
integration (files `__init__.py`, `api.py`, `sensor.py`, `const.py`).

Conventions of the embedding:
* a Python `datetime` is modelled as an integer number of seconds since the
  epoch; `date()` is the floor-division by 86400 (the epoch day),
  `hour`/`minute` are derived from the seconds-of-day;
* the code only ever rounds a quantity of the form `seconds / 60`
  (`round((a - b).total_seconds() / 60)`); Python `round` is banker's rounding
  (round half to even), and at the tie points `seconds / 60` is exactly
  representable as a float, so `roundDiv60 : ℤ → ℤ` below models
  `round(seconds / 60)` exactly;
* a missing dictionary key or a `None` value is an `Option.none`;
* a raised exception is an `Except.error`.
-/

namespace DelijnTracker

/-- Python `round(s / 60)` for an integer number of seconds `s`: round half to
even (banker's rounding). `Int.fdiv`/`Int.fmod` are floor division and its
remainder, matching Python `//` and `%`; the remainder is in `[0, 60)` and the
tie sits at remainder `30`. -/
def roundDiv60 (s : ℤ) : ℤ :=
  let q : ℤ := s.fdiv 60
  let r : ℤ := s.fmod 60
  if r < 30 then q
  else if 30 < r then q + 1
  else if q % 2 = 0 then q else q + 1

/-- `datetime.date()` of a timestamp in seconds: its epoch day. -/
def dateOf (t : ℤ) : ℤ := t.fdiv 86400

/-- `datetime.hour` of a timestamp in seconds. -/
def hourOf (t : ℤ) : ℤ := (t.fmod 86400).fdiv 3600

/-- `datetime.minute` of a timestamp in seconds. -/
def minuteOf (t : ℤ) : ℤ := ((t.fmod 86400).fmod 3600).fdiv 60

/-- Render an hour or minute value with Python `%02d` padding (the values the
code formats are in `[0, 60)`). -/
def twoDigit (n : ℤ) : String :=
  if n < 10 then "0" ++ toString n else toString n

/-- `strftime a "%H:%M"` of a timestamp in seconds. -/
def fmtHM (t : ℤ) : String := twoDigit (hourOf t) ++ ":" ++ twoDigit (minuteOf t)

example : roundDiv60 420 = 7 := by decide
example : roundDiv60 90 = 2 := by decide
example : roundDiv60 150 = 2 := by decide
example : roundDiv60 30 = 0 := by decide
example : roundDiv60 (-90) = -2 := by decide
example : roundDiv60 (-30) = 0 := by decide
example : roundDiv60 100 = 2 := by decide
example : dateOf 86400 = 1 := by decide
example : hourOf (86400 + 8*3600 + 30*60) = 8 := by decide
example : minuteOf (8*3600 + 30*60) = 30 := by decide
example : fmtHM (8*3600 + 5*60) = "08:05" := by decide

/-! ## Delay thresholds (`const.py`) -/

def DELAY_HIGH : ℤ := 10
def DELAY_MEDIUM : ℤ := 5
def DELAY_LOW : ℤ := 1
def EARLY_HIGH : ℤ := 6
def EARLY_MEDIUM : ℤ := 3
def EARLY_LOW : ℤ := 1

/-! ## Persisted delay state and `_update_delay_stats` (`__init__.py`) -/

/-- The per-device record kept in `self._delay_stats[device_id]`. -/
structure DelayStats where
  delay_counter : ℕ
  high_delay : ℕ
  medium_delay : ℕ
  low_delay : ℕ
  high_early : ℕ
  medium_early : ℕ
  low_early : ℕ
  last_delay : Option ℤ
  last_delay_date : Option String
  last_had_realtime : Bool
  deriving Repr, DecidableEq

/-- The zeroed record created when `device_id` is not yet in the stats map. -/
def initDelayStats : DelayStats :=
  { delay_counter := 0
    high_delay := 0
    medium_delay := 0
    low_delay := 0
    high_early := 0
    medium_early := 0
    low_early := 0
    last_delay := none
    last_delay_date := none
    last_had_realtime := true }

/-- The guard of the delay-counter increment in `_update_delay_stats`:
`last_delay is not None and last_delay > DELAY_LOW and last_had_realtime and
not had_realtime`. -/
def delayCounterCond (stats : DelayStats) (had_realtime : Bool) : Bool :=
  (match stats.last_delay with
   | some v => decide (v > DELAY_LOW)
   | none => false)
  && stats.last_had_realtime && !had_realtime

/-- The severity buckets of `_update_delay_stats`. -/
inductive Bucket where
  | high_delay | medium_delay | low_delay
  | high_early | medium_early | low_early
  deriving Repr, DecidableEq

/-- Which bucket counter the `if/elif` chain of `_update_delay_stats`
increments for a present delay value (`none` when no branch fires). -/
def bucketOf (delay : ℤ) : Option Bucket :=
  if delay > DELAY_HIGH then some .high_delay
  else if delay > DELAY_MEDIUM then some .medium_delay
  else if delay > DELAY_LOW then some .low_delay
  else if delay < -EARLY_HIGH then some .high_early
  else if delay < -EARLY_MEDIUM then some .medium_early
  else if delay < -EARLY_LOW then some .low_early
  else none

/-- Read the counter field of a bucket. -/
def bucketCount (b : Bucket) (s : DelayStats) : ℕ :=
  match b with
  | .high_delay => s.high_delay
  | .medium_delay => s.medium_delay
  | .low_delay => s.low_delay
  | .high_early => s.high_early
  | .medium_early => s.medium_early
  | .low_early => s.low_early

/-- Bump the counter field of a bucket. -/
def bumpBucket (b : Bucket) (s : DelayStats) : DelayStats :=
  match b with
  | .high_delay => { s with high_delay := s.high_delay + 1 }
  | .medium_delay => { s with medium_delay := s.medium_delay + 1 }
  | .low_delay => { s with low_delay := s.low_delay + 1 }
  | .high_early => { s with high_early := s.high_early + 1 }
  | .medium_early => { s with medium_early := s.medium_early + 1 }
  | .low_early => { s with low_early := s.low_early + 1 }

/-- `_update_delay_stats` on an existing record `stats` (the body after the
first-seen initialization): the delay-counter step, the bucket step, the
`last_delay`/`last_delay_date` recording and the `last_had_realtime`
recording, in program order. `todayStr` is `datetime.now().date().isoformat()`. -/
def updateDelayStats (stats : DelayStats) (delay : Option ℤ) (had_realtime : Bool)
    (todayStr : String) : DelayStats :=
  let s1 :=
    if delayCounterCond stats had_realtime then
      { stats with delay_counter := stats.delay_counter + 1 }
    else stats
  let s2 :=
    match delay with
    | some d =>
      match bucketOf d with
      | some b => bumpBucket b s1
      | none => s1
    | none => s1
  let s3 :=
    match delay with
    | some d => { s2 with last_delay := some d, last_delay_date := some todayStr }
    | none => s2
  { s3 with last_had_realtime := had_realtime }

/-- `_update_delay_stats` including the first-seen initialization of the
device key. -/
def updateDelayStatsFull (existing : Option DelayStats) (delay : Option ℤ)
    (had_realtime : Bool) (todayStr : String) : DelayStats :=
  updateDelayStats (existing.getD initDelayStats) delay had_realtime todayStr

example : bucketOf 11 = some .high_delay := by decide
example : bucketOf 10 = some .medium_delay := by decide
example : bucketOf 7 = some .medium_delay := by decide
example : bucketOf 2 = some .low_delay := by decide
example : bucketOf 1 = none := by decide
example : bucketOf 0 = none := by decide
example : bucketOf (-1) = none := by decide
example : bucketOf (-2) = some .low_early := by decide
example : bucketOf (-3) = some .low_early := by decide
example : bucketOf (-4) = some .medium_early := by decide
example : bucketOf (-6) = some .medium_early := by decide
example : bucketOf (-7) = some .high_early := by decide
example :
    (updateDelayStats initDelayStats (some 7) true "2024-01-01").medium_delay = 1 := by
  decide
example :
    (updateDelayStats { initDelayStats with last_delay := some 4, last_had_realtime := true }
      none false "2024-01-01").delay_counter = 1 := by
  decide

/-! ## Real-time client (`api.py`, `get_realtime_data`) -/

/-- One entry of the real-time feed
(`realtime_data["halteDoorkomsten"][0]["doorkomsten"]`). Timestamps are
modelled as parsed seconds; a missing key or `None` value is `none`. -/
structure RtDoorkomst where
  lijnnummer : String
  dienstregelingTijdstip : Option ℤ
  realTimeTijdstip : Option ℤ
  predictionStatussen : List String
  vrtnum : Option ℕ
  richting : Option String
  deriving Repr, DecidableEq

/-- The dictionary `get_realtime_data` returns for a matching doorkomst. -/
structure RtMatch where
  dienstregelingTijdstip : Option ℤ
  realtime_time : Option ℤ
  prediction_status : Option String
  vehicle_number : Option ℕ
  direction : Option String
  deriving Repr, DecidableEq

/-- What the network layer handed to `get_realtime_data` when nothing raised:
whether the stop was found in some entity, whether the stop's hypermedia
links contain a `real-time` link, and the doorkomsten of the real-time feed. -/
structure RealtimeFetch where
  halteFound : Bool
  hasRealtimeLink : Bool
  doorkomsten : List RtDoorkomst

/-- `get_realtime_data`: the `fetch` argument is the outcome of the awaited
HTTP requests (`Except.error` models a raised request error). On error the
function logs and falls through to `return {}` (here `none`); otherwise it
scans for the first doorkomst whose line number and scheduled-timestamp
match exactly, returning `{}` (`none`) when the stop, the link or a match is
missing. -/
def getRealtimeData (fetch : Except String RealtimeFetch) (line_number : String)
    (scheduled_time : ℤ) : Option RtMatch :=
  match fetch with
  | .error _ => none
  | .ok f =>
    if !f.halteFound then none
    else if !f.hasRealtimeLink then none
    else
      match f.doorkomsten.find? (fun d =>
        d.lijnnummer == line_number && d.dienstregelingTijdstip == some scheduled_time) with
      | some d =>
        some { dienstregelingTijdstip := d.dienstregelingTijdstip
               realtime_time := d.realTimeTijdstip
               prediction_status := d.predictionStatussen.head?
               vehicle_number := d.vrtnum
               direction := d.richting }
      | none => none

/-! ## Coordinator delay derivation (`__init__.py`, `_async_update_data`) -/

/-- The realtime block of `_async_update_data` (lines checking
`realtime_data.get("realtime_time")` and `dienstregelingTijdstip`): returns
the pair `(latest_delay, had_realtime)`. A delay is derived only when both
timestamps are present and the observed timestamp's calendar date equals
`today` (an epoch day); then it is `round((real_time - sched_time) / 60)`
in minutes. -/
def computeLatest (realtime_data : Option RtMatch) (today : ℤ) : Option ℤ × Bool :=
  match realtime_data with
  | none => (none, false)
  | some rd =>
    match rd.realtime_time, rd.dienstregelingTijdstip with
    | some real_time, some sched_time =>
      if dateOf real_time = today then
        (some (roundDiv60 (real_time - sched_time)), true)
      else (none, true)
    | _, _ => (none, false)

/-! ## Schedule client (`api.py`, `get_schedule_times`) -/

/-- A parsed `target_time` of the form `"HH:MM"`. -/
structure TimeHM where
  hour : ℤ
  minute : ℤ
  deriving Repr, DecidableEq

/-- One entry of the schedule feed
(`data["halteDoorkomsten"][0]["doorkomsten"]`). -/
structure Doorkomst where
  lijnnummer : String
  dienstregelingTijdstip : Option ℤ
  bestemming : Option String
  ritnummer : Option ℕ
  deriving Repr, DecidableEq

/-- The line metadata returned by `_get_line_details`. -/
structure LineDetail where
  vervoertype : Option String
  lijnnummerPubliek : Option String
  omschrijving : Option String
  deriving Repr, DecidableEq

/-- One processed `time_entry` dictionary of `get_schedule_times`. -/
structure TimeEntry where
  time : String
  timestamp : ℤ
  waiting_time : ℤ
  bestemming : String
  ritnummer : Option ℕ
  vehicle_type : Option String
  public_line : String
  line_description : Option String
  date : ℤ
  deriving Repr, DecidableEq

/-- What the network layer handed to `get_schedule_times` when nothing
raised: stop resolution, presence of the `dienstregelingen` link, the line
metadata, and the schedule feed. `feed k` is the doorkomsten list the feed
returns for the date `today + k` days (`k = 0` is the request without an
explicit `datum` parameter). -/
structure ScheduleFetch where
  halteFound : Bool
  hasDienstregelingenLink : Bool
  lineDetail : LineDetail
  feed : ℕ → List Doorkomst

/-- `get_doorkomsten_for_date`: the feed of a day filtered to the requested
line (`str(doorkomst.get("lijnnummer")) == line_number`). -/
def doorkomstenForDate (f : ScheduleFetch) (line_number : String) (k : ℕ) :
    List Doorkomst :=
  (f.feed k).filter (fun d => d.lijnnummer == line_number)

/-- `current_time.replace(hour=target_hour, minute=target_minute, second=0)`:
the target clock time placed on today's date, in seconds. -/
def targetToday (t : TimeHM) (now : ℤ) : ℤ :=
  (now.fdiv 86400) * 86400 + t.hour * 3600 + t.minute * 60

/-- The inner loop of the day-by-day search: scan a day's doorkomsten for the
first one whose hour and minute equal the target. Accessing
`doorkomst["dienstregelingTijdstip"]` on an entry without the key raises,
which the surrounding `except` turns into a re-raised error. -/
def findTargetMatch (t : TimeHM) : List Doorkomst → Except String (Option Doorkomst)
  | [] => .ok none
  | d :: rest =>
    match d.dienstregelingTijdstip with
    | none => .error "KeyError: dienstregelingTijdstip"
    | some ts =>
      if hourOf ts = t.hour ∧ minuteOf ts = t.minute then .ok (some d)
      else findTargetMatch t rest

/-- The `for _ in range(7)` lookahead: starting at `day`, try `remaining`
consecutive days; append the first matching doorkomst of the first day that
has one and stop. -/
def lookahead (dk : ℕ → List Doorkomst) (t : TimeHM) (day : ℕ) :
    ℕ → Except String (List Doorkomst)
  | 0 => .ok []
  | remaining + 1 =>
    match findTargetMatch t (dk day) with
    | .error e => .error e
    | .ok (some d) => .ok [d]
    | .ok none => lookahead dk t (day + 1) remaining

/-- The `all_doorkomsten` selection of `get_schedule_times`: today's matches
when there is no target time or the target is still to come today; otherwise
the 7-day lookahead over days `1..7`. -/
def allDoorkomsten (f : ScheduleFetch) (line_number : String)
    (target : Option TimeHM) (now : ℤ) : Except String (List Doorkomst) :=
  let dk := doorkomstenForDate f line_number
  match target with
  | some t => if targetToday t now < now then lookahead dk t 1 7 else .ok (dk 0)
  | none => .ok (dk 0)

/-- Build one `time_entry` from a doorkomst whose scheduled timestamp is
`ts`: `waiting_time = round((scheduled_time - current_time) / 60)` plus the
attached line metadata. -/
def mkTimeEntry (now : ℤ) (ld : LineDetail) (line_number : String) (ts : ℤ)
    (d : Doorkomst) : TimeEntry :=
  { time := fmtHM ts
    timestamp := ts
    waiting_time := roundDiv60 (ts - now)
    bestemming := d.bestemming.getD "Unknown"
    ritnummer := d.ritnummer
    vehicle_type := ld.vervoertype
    public_line := ld.lijnnummerPubliek.getD line_number
    line_description := ld.omschrijving
    date := dateOf ts }

/-- The processing loop of `get_schedule_times`: entries without a scheduled
timestamp are skipped (`if not scheduled_time_str: continue`). -/
def processDoorkomst (now : ℤ) (ld : LineDetail) (line_number : String)
    (d : Doorkomst) : Option TimeEntry :=
  match d.dienstregelingTijdstip with
  | none => none
  | some ts => some (mkTimeEntry now ld line_number ts d)

/-- One step of Python's stable sort: insert `x` after every element whose
key is strictly smaller and before the first element whose key is greater
than or equal (so, inserting earlier elements into the sorted remainder,
elements with equal keys keep their original order, as `sorted` guarantees). -/
def pyInsert (key : α → ℤ) (x : α) : List α → List α
  | [] => [x]
  | y :: ys => if key y < key x then y :: pyInsert key x ys else x :: y :: ys

/-- `sorted(l, key=key)`: stable sort ascending by an integer key. -/
def pySortBy (key : α → ℤ) : List α → List α
  | [] => []
  | x :: xs => pyInsert key x (pySortBy key xs)

/-- The body of `get_schedule_times` once the awaited requests succeeded. -/
def getScheduleTimesCore (f : ScheduleFetch) (line_number : String)
    (target : Option TimeHM) (now : ℤ) : Except String (List TimeEntry) :=
  if !f.halteFound then .ok []
  else if !f.hasDienstregelingenLink then .ok []
  else
    (allDoorkomsten f line_number target now).map (fun ds =>
      pySortBy (fun e => e.waiting_time)
        (ds.filterMap (processDoorkomst now f.lineDetail line_number)))

/-- `get_schedule_times`: the `fetch` argument is the outcome of the awaited
HTTP requests. A raised request error is logged and re-raised
(`except ... raise`), so it propagates to the caller as `Except.error`. -/
def getScheduleTimes (fetch : Except String ScheduleFetch) (line_number : String)
    (target : Option TimeHM) (now : ℤ) : Except String (List TimeEntry) :=
  match fetch with
  | .error e => .error e
  | .ok f => getScheduleTimesCore f line_number target now

/-! ## Sensor display (`sensor.py`, `native_value`) -/

/-- Python string truthiness of an optional string (`None` and `""` are
falsy). -/
def strTruthy : Option String → Bool
  | none => false
  | some s => !(s == "")

/-- Truthiness of `realtime and realtime.get("realtime_time")`: the realtime
dictionary is `{}` (falsy) or carries an optional `realtime_time`. -/
def rtTruthy : Option RtMatch → Bool
  | none => false
  | some rt => rt.realtime_time.isSome

/-- The slice of `coordinator.data[device_id]` the sensors read. -/
structure DeviceData where
  schedule : List TimeEntry
  realtime : Option RtMatch
  latest_delay : Option ℤ
  last_known_delay : Option ℤ
  last_delay_date : Option String
  deriving Repr

/-- `native_value` for the `latest_delay` sensor: the guard finding the
schedule entry whose `time` equals the configured time, then the realtime
branch, then the stored-delay fallback gated on `last_delay_date == today`. -/
def nativeValueLatestDelay (dd : DeviceData) (scheduled_time : String)
    (todayStr : String) : Option ℤ :=
  match dd.schedule.find? (fun t => t.time == scheduled_time) with
  | none => none
  | some _ =>
    if rtTruthy dd.realtime && dd.latest_delay.isSome then dd.latest_delay
    else if dd.last_known_delay.isSome && strTruthy dd.last_delay_date then
      if dd.last_delay_date = some todayStr then dd.last_known_delay else none
    else none

/-- `native_value` for the `waiting_time` sensor, formatting step: given
`total_minutes = int(time_diff.total_seconds() / 60)`, split into days,
hours and minutes and format as `f"{days} days {hours:02d}:{mins:02d}"`
when at least one day remains, else `f"{hours:02d}:{mins:02d}"`. -/
def formatWaitingTime (total_minutes : ℤ) : String :=
  let days := total_minutes.fdiv 1440
  let remaining_minutes := total_minutes.fmod 1440
  let hours := remaining_minutes.fdiv 60
  let mins := remaining_minutes.fmod 60
  if days > 0 then
    toString days ++ " days " ++ twoDigit hours ++ ":" ++ twoDigit mins
  else
    twoDigit hours ++ ":" ++ twoDigit mins

example : formatWaitingTime 1500 = "1 days 01:00" := by decide
example : formatWaitingTime 90 = "01:30" := by decide
example : pySortBy (fun n => n) [3, 1, 2] = [1, 2, 3] := by decide

/-! ## Helper lemmas -/

theorem pyInsert_perm (key : α → ℤ) (x : α) (l : List α) :
    List.Perm (pyInsert key x l) (x :: l) := by
  induction l with
  | nil => simp [pyInsert]
  | cons y ys ih =>
    simp only [pyInsert]
    split
    · exact (ih.cons y).trans (List.Perm.swap x y ys)
    · exact List.Perm.refl _

theorem pySortBy_perm (key : α → ℤ) (l : List α) : List.Perm (pySortBy key l) l := by
  induction l with
  | nil => simp [pySortBy]
  | cons x xs ih => exact (pyInsert_perm key x (pySortBy key xs)).trans (ih.cons x)

theorem pyInsert_pairwise (key : α → ℤ) (x : α) (l : List α)
    (h : l.Pairwise (fun a b => key a ≤ key b)) :
    (pyInsert key x l).Pairwise (fun a b => key a ≤ key b) := by
  induction l with
  | nil => simp [pyInsert]
  | cons y ys ih =>
    rw [List.pairwise_cons] at h
    obtain ⟨hy, hys⟩ := h
    simp only [pyInsert]
    by_cases hk : key y < key x
    · rw [if_pos hk, List.pairwise_cons]
      refine ⟨fun b hb => ?_, ih hys⟩
      rcases List.mem_cons.mp ((pyInsert_perm key x ys).mem_iff.mp hb) with rfl | hb2
      · exact le_of_lt hk
      · exact hy b hb2
    · rw [if_neg hk, List.pairwise_cons]
      refine ⟨fun b hb => ?_, List.pairwise_cons.mpr ⟨hy, hys⟩⟩
      rcases List.mem_cons.mp hb with rfl | hb2
      · exact not_lt.mp hk
      · exact le_trans (not_lt.mp hk) (hy b hb2)

theorem pySortBy_pairwise (key : α → ℤ) (l : List α) :
    (pySortBy key l).Pairwise (fun a b => key a ≤ key b) := by
  induction l with
  | nil => simp [pySortBy]
  | cons x xs ih => exact pyInsert_pairwise key x (pySortBy key xs) ih

theorem lookahead_length_le (dk : ℕ → List Doorkomst) (t : TimeHM) (day r : ℕ)
    (l : List Doorkomst) (h : lookahead dk t day r = .ok l) : l.length ≤ 1 := by
  induction r generalizing day with
  | zero =>
    simp only [lookahead] at h
    cases h
    simp
  | succ r ih =>
    simp only [lookahead] at h
    cases hm : findTargetMatch t (dk day) with
    | error e => rw [hm] at h; cases h
    | ok o =>
      cases o with
      | some d => rw [hm] at h; cases h; simp
      | none => rw [hm] at h; exact ih (day + 1) h

theorem lookahead_none (dk : ℕ → List Doorkomst) (t : TimeHM) (day r : ℕ)
    (h : ∀ k, day ≤ k → k < day + r → findTargetMatch t (dk k) = .ok none) :
    lookahead dk t day r = .ok [] := by
  induction r generalizing day with
  | zero => rfl
  | succ r ih =>
    simp only [lookahead]
    rw [h day (Nat.le_refl day) (by omega)]
    exact ih (day + 1) (fun k hk1 hk2 => h k (by omega) (by omega))

theorem lookahead_found (dk : ℕ → List Doorkomst) (t : TimeHM) (day r j : ℕ)
    (d : Doorkomst) (hj1 : day ≤ j) (hj2 : j < day + r)
    (hnone : ∀ k, day ≤ k → k < j → findTargetMatch t (dk k) = .ok none)
    (hfound : findTargetMatch t (dk j) = .ok (some d)) :
    lookahead dk t day r = .ok [d] := by
  induction r generalizing day with
  | zero => omega
  | succ r ih =>
    simp only [lookahead]
    by_cases hdj : day = j
    · subst hdj; rw [hfound]
    · rw [hnone day (Nat.le_refl day) (lt_of_le_of_ne hj1 hdj)]
      exact ih (day + 1) (by omega) (by omega) (fun k hk1 hk2 => hnone k (by omega) hk2)

theorem delay_counter_bumpBucket (b : Bucket) (s : DelayStats) :
    (bumpBucket b s).delay_counter = s.delay_counter := by
  cases b <;> rfl

theorem bucketCount_bumpBucket (b b2 : Bucket) (s : DelayStats) :
    bucketCount b (bumpBucket b2 s) = bucketCount b s + if b2 = b then 1 else 0 := by
  cases b <;> cases b2 <;> simp [bucketCount, bumpBucket]

theorem bucketCount_counterStep (b : Bucket) (s : DelayStats) (had : Bool) :
    bucketCount b (if delayCounterCond s had then
      { s with delay_counter := s.delay_counter + 1 } else s) = bucketCount b s := by
  split <;> cases b <;> rfl

/-! ## Concrete instances used by witnesses -/

/-- A realtime match scheduled at epoch day 1 midnight, observed 7 minutes
later. -/
def sampleRtMatch : RtMatch :=
  { dienstregelingTijdstip := some 86400
    realtime_time := some (86400 + 420)
    prediction_status := some "REALTIME"
    vehicle_number := some 4321
    direction := none }

/-- A schedule fetch whose feed is empty on every day. -/
def emptyFetch : ScheduleFetch :=
  { halteFound := true
    hasDienstregelingenLink := true
    lineDetail := { vervoertype := some "BUS", lijnnummerPubliek := none, omschrijving := none }
    feed := fun _ => [] }

/-- A schedule fetch with two departures today, listed out of order. -/
def twoDepartureFetch : ScheduleFetch :=
  { halteFound := true
    hasDienstregelingenLink := true
    lineDetail := { vervoertype := some "BUS", lijnnummerPubliek := some "5", omschrijving := some "A - B" }
    feed := fun k =>
      if k = 0 then
        [ { lijnnummer := "5", dienstregelingTijdstip := some (10 * 3600), bestemming := some "B", ritnummer := some 7 }
        , { lijnnummer := "7", dienstregelingTijdstip := some (7 * 3600), bestemming := some "C", ritnummer := some 8 }
        , { lijnnummer := "5", dienstregelingTijdstip := some (8 * 3600), bestemming := some "B", ritnummer := some 9 } ]
      else [] }

/-- The two departures of `twoDepartureFetch` on line `"5"`, in feed order. -/
def twoDepartures : List Doorkomst :=
  [ { lijnnummer := "5", dienstregelingTijdstip := some (10 * 3600), bestemming := some "B", ritnummer := some 7 }
  , { lijnnummer := "5", dienstregelingTijdstip := some (8 * 3600), bestemming := some "B", ritnummer := some 9 } ]

/-- A departure 150 seconds from `now = 0`: rounded waiting time 2 minutes
(2.5 rounds half to even). -/
def tieDoorkomstA : Doorkomst :=
  { lijnnummer := "5", dienstregelingTijdstip := some 150, bestemming := some "B", ritnummer := some 1 }

/-- A departure 90 seconds from `now = 0`: rounded waiting time 2 minutes
(1.5 rounds half to even). -/
def tieDoorkomstB : Doorkomst :=
  { lijnnummer := "5", dienstregelingTijdstip := some 90, bestemming := some "B", ritnummer := some 2 }

/-- A schedule fetch whose feed lists the later departure first; both round
to the same waiting time. -/
def tieFetch : ScheduleFetch :=
  { halteFound := true
    hasDienstregelingenLink := true
    lineDetail := { vervoertype := some "BUS", lijnnummerPubliek := some "5", omschrijving := some "A - B" }
    feed := fun k => if k = 0 then [tieDoorkomstA, tieDoorkomstB] else [] }

/-- Device data with no realtime match this cycle but a stored delay of 4
minutes dated 2024-01-01. -/
def sampleDeviceData : DeviceData :=
  { schedule := [mkTimeEntry 0 emptyFetch.lineDetail "5" (8 * 3600)
      { lijnnummer := "5", dienstregelingTijdstip := some (8 * 3600), bestemming := some "B", ritnummer := some 7 }]
    realtime := none
    latest_delay := none
    last_known_delay := some 4
    last_delay_date := some "2024-01-01" }

/-! ## Claim theorems -/

/-- C1 counterexample: at `delay_minutes = -1` the classifier increments no
bucket, yet `-1` is not in the claimed on-time band `(-1, 1]`, so "no bucket
otherwise, the on-time band being `(-1, 1]`" is false as stated: the actual
on-time band is `[-1, 1]`. -/
theorem C1_counterexample :
    ¬(bucketOf (-1) = none ↔ ((-1 : ℤ) > -1 ∧ (-1 : ℤ) ≤ 1)) := by decide

/-- C1 (amended): for every integer `delay_minutes`, `_update_delay_stats`
increments exactly the bucket selected by the threshold chain, and the
thresholds evaluate to: high_delay iff `delay > 10`; medium_delay iff
`delay ∈ (5, 10]`; low_delay iff `delay ∈ (1, 5]`; high_early iff
`delay < -6`; medium_early iff `delay ∈ [-6, -3)`; low_early iff
`delay ∈ [-3, -1)`; no bucket otherwise, the on-time band being `[-1, 1]`. -/
theorem C1_bucket_classification (s : DelayStats) (had : Bool) (todayStr : String)
    (d : ℤ) :
    (∀ b : Bucket, bucketCount b (updateDelayStats s (some d) had todayStr) =
      bucketCount b s + if bucketOf d = some b then 1 else 0) ∧
    (bucketOf d = some .high_delay ↔ 10 < d) ∧
    (bucketOf d = some .medium_delay ↔ 5 < d ∧ d ≤ 10) ∧
    (bucketOf d = some .low_delay ↔ 1 < d ∧ d ≤ 5) ∧
    (bucketOf d = some .high_early ↔ d < -6) ∧
    (bucketOf d = some .medium_early ↔ -6 ≤ d ∧ d < -3) ∧
    (bucketOf d = some .low_early ↔ -3 ≤ d ∧ d < -1) ∧
    (bucketOf d = none ↔ -1 ≤ d ∧ d ≤ 1) := by
  constructor
  · intro b
    cases hb : bucketOf d with
    | none =>
      simp only [updateDelayStats, hb]
      have := bucketCount_counterStep b s had
      cases b <;> simp_all [bucketCount]
    | some b2 =>
      simp only [updateDelayStats, hb]
      have h1 := bucketCount_counterStep b s had
      have h2 := bucketCount_bumpBucket b b2
        (if delayCounterCond s had then
          { s with delay_counter := s.delay_counter + 1 } else s)
      cases b <;> cases b2 <;> simp_all [bucketCount, bumpBucket]
  · simp only [bucketOf, DELAY_HIGH, DELAY_MEDIUM, DELAY_LOW,
      EARLY_HIGH, EARLY_MEDIUM, EARLY_LOW]
    split_ifs <;> simp_all <;> omega

/-- C2: for an existing device record, `_update_delay_stats` increments
`delay_counter` by exactly 1 iff the recorded `last_delay` is present and
strictly greater than 1 minute, the previous cycle had real-time data, and
the current cycle has none; otherwise `delay_counter` is unchanged. -/
theorem C2_delay_counter (s : DelayStats) (delay : Option ℤ) (had : Bool)
    (todayStr : String) :
    ((updateDelayStats s delay had todayStr).delay_counter =
      s.delay_counter + if delayCounterCond s had then 1 else 0) ∧
    (delayCounterCond s had = true ↔
      (∃ v, s.last_delay = some v ∧ 1 < v) ∧
        s.last_had_realtime = true ∧ had = false) := by
  constructor
  · simp only [updateDelayStats]
    cases delay with
    | none => split_ifs <;> rfl
    | some d =>
      cases hb : bucketOf d with
      | none => simp only [hb]; split_ifs <;> rfl
      | some b => simp only [hb]; split_ifs <;> simp [delay_counter_bumpBucket]
  · simp only [delayCounterCond, DELAY_LOW]
    cases hld : s.last_delay with
    | none => simp
    | some v =>
      cases s.last_had_realtime <;> cases had <;> simp [hld]

/-- C9: calling `_update_delay_stats` on an existing record with
`delay_minutes = none` leaves `last_delay`, `last_delay_date` and all six
bucket counters unchanged, while `last_had_realtime` is set to the current
cycle's `had_realtime` on every call, with or without a delay value. -/
theorem C9_frame_no_delay (s : DelayStats) (had : Bool) (todayStr : String) :
    ((updateDelayStats s none had todayStr).last_delay = s.last_delay) ∧
    ((updateDelayStats s none had todayStr).last_delay_date = s.last_delay_date) ∧
    (∀ b : Bucket, bucketCount b (updateDelayStats s none had todayStr) =
      bucketCount b s) ∧
    (∀ delay : Option ℤ,
      (updateDelayStats s delay had todayStr).last_had_realtime = had) := by
  refine ⟨?_, ?_, ?_, ?_⟩
  · simp only [updateDelayStats]; split <;> rfl
  · simp only [updateDelayStats]; split <;> rfl
  · intro b
    simp only [updateDelayStats]
    have := bucketCount_counterStep b s had
    cases b <;> simp_all [bucketCount]
  · intro delay
    cases delay <;> simp only [updateDelayStats]

/-- C3: when both timestamps of a realtime match are present, the derived
delay is none whenever the observed timestamp's calendar date differs from
the current date; when the dates match, it is
`round((observed - scheduled) / 60)` minutes. -/
theorem C3_delay_requires_today (rd : RtMatch) (real_time sched_time today : ℤ)
    (h1 : rd.realtime_time = some real_time)
    (h2 : rd.dienstregelingTijdstip = some sched_time) :
    (dateOf real_time ≠ today → (computeLatest (some rd) today).1 = none) ∧
    (dateOf real_time = today →
      (computeLatest (some rd) today).1 = some (roundDiv60 (real_time - sched_time))) := by
  simp only [computeLatest, h1, h2]
  constructor
  · intro h; rw [if_neg h]
  · intro h; rw [if_pos h]

/-- C3 witness: the sample match (scheduled at epoch day 1, observed 7
minutes later) yields no delay against today = day 0 and delay 7 against
today = day 1. -/
theorem C3_witness :
    (computeLatest (some sampleRtMatch) 0).1 = none ∧
    (computeLatest (some sampleRtMatch) 1).1 = some 7 := by
  constructor
  · exact (C3_delay_requires_today sampleRtMatch (86400 + 420) 86400 0 rfl rfl).1
      (by decide)
  · have h := (C3_delay_requires_today sampleRtMatch (86400 + 420) 86400 1 rfl rfl).2
      (by decide)
    rw [h]
    decide

/-- C4 counterexample: a request error in `get_schedule_times` is re-raised
past the client boundary (`except ... raise`), not turned into an empty
result, so "such errors are never raised past the client boundary" is false
for `get_schedule`. -/
theorem C4_counterexample :
    getScheduleTimes (.error "HTTP 500") "5" none 0 = .error "HTTP 500" ∧
    (Except.error "HTTP 500" : Except String (List TimeEntry)) ≠ .ok [] := by
  exact ⟨rfl, by simp⟩

/-- C4 (amended): on any upstream request error, `get_realtime_data` logs
and returns the empty result, while `get_schedule_times` logs and re-raises
the error to its caller (the coordinator catches it per device). -/
theorem C4_error_handling (e : String) (line_number : String)
    (target : Option TimeHM) (now scheduled_time : ℤ) :
    getRealtimeData (.error e) line_number scheduled_time = none ∧
    getScheduleTimes (.error e) line_number target now = .error e :=
  ⟨rfl, rfl⟩

/-- C7 counterexample: formatting a waiting time of 1500 minutes does not
yield `"1.01:00"`: the code formats with `f"{days} days {hours:02d}:{mins:02d}"`. -/
theorem C7_counterexample : formatWaitingTime 1500 ≠ "1.01:00" := by decide

/-- C7 (amended): formatting a waiting time of 1500 minutes (1 day, 1 hour,
0 minutes) yields `"1 days 01:00"`. -/
theorem C7_format_1500 : formatWaitingTime 1500 = "1 days 01:00" := by decide

/-- C5: when `target_time` has already passed today, `get_schedule_times`
advances day by day over at most 7 future days with an explicit date
parameter; it stops at the first day containing a departure whose hour and
minute equal the target, returning that departure processed; if all 7 days
are exhausted without a match, it returns the empty sequence, not an
error. -/
theorem C5_target_lookahead (f : ScheduleFetch) (line_number : String) (t : TimeHM)
    (now : ℤ) (hh : f.halteFound = true) (hl : f.hasDienstregelingenLink = true)
    (hp : targetToday t now < now) :
    ((∀ k, 1 ≤ k → k ≤ 7 →
        findTargetMatch t (doorkomstenForDate f line_number k) = .ok none) →
      getScheduleTimes (.ok f) line_number (some t) now = .ok []) ∧
    (∀ j d ts, 1 ≤ j → j ≤ 7 →
      (∀ k, 1 ≤ k → k < j →
        findTargetMatch t (doorkomstenForDate f line_number k) = .ok none) →
      findTargetMatch t (doorkomstenForDate f line_number j) = .ok (some d) →
      d.dienstregelingTijdstip = some ts →
      getScheduleTimes (.ok f) line_number (some t) now =
        .ok [mkTimeEntry now f.lineDetail line_number ts d]) := by
  have hcore : getScheduleTimes (.ok f) line_number (some t) now =
      (lookahead (doorkomstenForDate f line_number) t 1 7).map (fun ds =>
        pySortBy (fun e => e.waiting_time)
          (ds.filterMap (processDoorkomst now f.lineDetail line_number))) := by
    simp [getScheduleTimes, getScheduleTimesCore, allDoorkomsten, hh, hl, hp]
  constructor
  · intro hnone
    have hla : lookahead (doorkomstenForDate f line_number) t 1 7 = .ok [] :=
      lookahead_none _ t 1 7 (fun k h1 h2 => hnone k h1 (by omega))
    rw [hcore, hla]
    rfl
  · intro j d ts hj1 hj2 hnone hfound hts
    have hla : lookahead (doorkomstenForDate f line_number) t 1 7 = .ok [d] :=
      lookahead_found _ t 1 7 j d hj1 (by omega) hnone hfound
    rw [hcore, hla]
    simp [Except.map, processDoorkomst, hts, pySortBy, pyInsert]

/-- C5 witness: with an empty feed on every future day and a target of
08:00 already passed at 08:30, the 7-day search returns the empty list. -/
theorem C5_witness :
    getScheduleTimes (.ok emptyFetch) "5" (some ⟨8, 0⟩) (8 * 3600 + 1800) = .ok [] :=
  (C5_target_lookahead emptyFetch "5" ⟨8, 0⟩ (8 * 3600 + 1800) rfl rfl
    (by decide)).1 (fun k h1 h2 => rfl)

/-- C10: on the day-by-day lookahead path (target given and already passed
today), `get_schedule_times` returns at most one departure: only the first
matching departure of the first matching day is appended. -/
theorem C10_lookahead_single (f : ScheduleFetch) (line_number : String) (t : TimeHM)
    (now : ℤ) (l : List TimeEntry)
    (hp : targetToday t now < now)
    (hres : getScheduleTimes (.ok f) line_number (some t) now = .ok l) :
    l.length ≤ 1 := by
  cases hhal : f.halteFound with
  | false =>
    have h2 := hres
    simp [getScheduleTimes, getScheduleTimesCore, hhal] at h2
    subst h2
    decide
  | true =>
    cases hlink : f.hasDienstregelingenLink with
    | false =>
      have h2 := hres
      simp [getScheduleTimes, getScheduleTimesCore, hhal, hlink] at h2
      subst h2
      decide
    | true =>
      have h2 := hres
      simp [getScheduleTimes, getScheduleTimesCore, hhal, hlink, allDoorkomsten, hp] at h2
      cases hla : lookahead (doorkomstenForDate f line_number) t 1 7 with
      | error e =>
        rw [hla] at h2
        simp [Except.map] at h2
      | ok ds =>
        rw [hla] at h2
        simp only [Except.map, Except.ok.injEq] at h2
        subst h2
        have hlen1 : ds.length <= 1 := lookahead_length_le _ t 1 7 ds hla
        have h3 := (pySortBy_perm (fun e : TimeEntry => e.waiting_time)
          (ds.filterMap (processDoorkomst now f.lineDetail line_number))).length_eq
        have h4 := List.length_filterMap_le
          (processDoorkomst now f.lineDetail line_number) ds
        omega

/-- C10 witness: the empty-feed lookahead run returns a list of length at
most one (here the empty list). -/
theorem C10_witness :
    getScheduleTimes (.ok emptyFetch) "5" (some ⟨9, 0⟩) (9 * 3600 + 1800) = .ok [] ∧
    ([] : List TimeEntry).length ≤ 1 :=
  ⟨by rfl, C10_lookahead_single emptyFetch "5" ⟨9, 0⟩ (9 * 3600 + 1800) []
    (by decide) (by rfl)⟩

/-- C8 counterexample: departures 150 s and 90 s away both round to a
waiting time of 2 minutes; the stable sort keeps their feed order, so the
returned sequence is sorted by `waiting_time` but not ascending by
scheduled timestamp, refuting "(equivalently, of scheduled timestamp)". -/
theorem C8_counterexample :
    (getScheduleTimes (.ok tieFetch) "5" none 0 =
      .ok [mkTimeEntry 0 tieFetch.lineDetail "5" 150 tieDoorkomstA,
           mkTimeEntry 0 tieFetch.lineDetail "5" 90 tieDoorkomstB]) ∧
    ¬ List.Pairwise (fun a b : TimeEntry => a.timestamp ≤ b.timestamp)
      [mkTimeEntry 0 tieFetch.lineDetail "5" 150 tieDoorkomstA,
       mkTimeEntry 0 tieFetch.lineDetail "5" 90 tieDoorkomstB] := by
  constructor
  · rfl
  · intro h
    have h2 := (List.pairwise_cons.mp h).1 _ (List.mem_cons_self _ _)
    simp [mkTimeEntry] at h2

/-- C8 (amended): for every list of matched departures, `get_schedule_times`
attaches `waiting_time = round((scheduled_timestamp - now) / 60)` to each
departure and returns the processed departures sorted in ascending order of
`waiting_time` (ties keeping feed order, so not necessarily ascending by
scheduled timestamp). -/
theorem C8_waiting_time_sorted (f : ScheduleFetch) (line_number : String)
    (target : Option TimeHM) (now : ℤ) (ds : List Doorkomst)
    (hh : f.halteFound = true) (hl : f.hasDienstregelingenLink = true)
    (hds : allDoorkomsten f line_number target now = .ok ds) :
    ∃ l, getScheduleTimes (.ok f) line_number target now = .ok l ∧
      List.Perm l (ds.filterMap (processDoorkomst now f.lineDetail line_number)) ∧
      l.Pairwise (fun a b => a.waiting_time ≤ b.waiting_time) ∧
      ∀ e ∈ l, e.waiting_time = roundDiv60 (e.timestamp - now) := by
  refine ⟨pySortBy (fun e => e.waiting_time)
      (ds.filterMap (processDoorkomst now f.lineDetail line_number)), ?_, ?_, ?_, ?_⟩
  · simp [getScheduleTimes, getScheduleTimesCore, hh, hl, hds, Except.map]
  · exact pySortBy_perm _ _
  · exact pySortBy_pairwise _ _
  · intro e he
    have he2 : e ∈ ds.filterMap (processDoorkomst now f.lineDetail line_number) :=
      (pySortBy_perm _ _).mem_iff.mp he
    obtain ⟨d, hd, hde⟩ := List.mem_filterMap.mp he2
    cases hts : d.dienstregelingTijdstip with
    | none => simp [processDoorkomst, hts] at hde
    | some ts =>
      simp only [processDoorkomst, hts, Option.some.injEq] at hde
      subst hde
      rfl

/-- C8 witness: the two out-of-order departures of `twoDepartureFetch` come
back with their rounded waiting times, sorted ascending. -/
theorem C8_witness :
    ∃ l, getScheduleTimes (.ok twoDepartureFetch) "5" none 0 = .ok l ∧
      List.Perm l (twoDepartures.filterMap
        (processDoorkomst 0 twoDepartureFetch.lineDetail "5")) ∧
      l.Pairwise (fun a b => a.waiting_time ≤ b.waiting_time) ∧
      ∀ e ∈ l, e.waiting_time = roundDiv60 (e.timestamp - 0) :=
  C8_waiting_time_sorted twoDepartureFetch "5" none 0 twoDepartures rfl rfl (by rfl)

/-- C6: when the current cycle has no real-time match (and a schedule entry
for the configured time exists), the reported latest-delay value equals the
persisted `last_known_delay` iff its `last_delay_date` equals today; in
every other case the reported value is none. -/
theorem C6_latest_delay_fallback (dd : DeviceData) (scheduled_time todayStr : String)
    (v : ℤ) (entry : TimeEntry)
    (hsched : dd.schedule.find? (fun t => t.time == scheduled_time) = some entry)
    (hrt : rtTruthy dd.realtime = false)
    (hknown : dd.last_known_delay = some v)
    (htoday : todayStr ≠ "") :
    (nativeValueLatestDelay dd scheduled_time todayStr = some v ↔
      dd.last_delay_date = some todayStr) ∧
    (dd.last_delay_date ≠ some todayStr →
      nativeValueLatestDelay dd scheduled_time todayStr = none) := by
  simp only [nativeValueLatestDelay, hsched]
  rw [hrt, hknown]
  cases hld : dd.last_delay_date with
  | none => simp [strTruthy]
  | some s2 =>
    by_cases hs : s2 = ""
    · subst hs
      simp [strTruthy, Ne.symm htoday]
    · by_cases hst : s2 = todayStr
      · subst hst
        simp [strTruthy, hs]
      · simp [strTruthy, hs, hst]

/-- C6 witness: with no realtime match and `last_known_delay = 4`, the
sensor reports 4 when `last_delay_date` is today and none when it is not. -/
theorem C6_witness :
    nativeValueLatestDelay sampleDeviceData "08:00" "2024-01-01" = some 4 ∧
    nativeValueLatestDelay sampleDeviceData "08:00" "2024-02-02" = none := by
  constructor
  · exact (C6_latest_delay_fallback sampleDeviceData "08:00" "2024-01-01" 4
      (mkTimeEntry 0 emptyFetch.lineDetail "5" (8 * 3600)
        { lijnnummer := "5", dienstregelingTijdstip := some (8 * 3600),
          bestemming := some "B", ritnummer := some 7 })
      (by rfl) rfl rfl (by decide)).1.mpr rfl
  · exact (C6_latest_delay_fallback sampleDeviceData "08:00" "2024-02-02" 4
      (mkTimeEntry 0 emptyFetch.lineDetail "5" (8 * 3600)
        { lijnnummer := "5", dienstregelingTijdstip := some (8 * 3600),
          bestemming := some "B", ritnummer := some 7 })
      (by rfl) rfl rfl (by decide)).2 (by decide)

end DelijnTracker
